import Mathlib

/-!
Verification of the picture-description enrichment stage of the docling
document-conversion pipeline: a shallow embedding of the models in
docling/models/picture_description_base_model.py,
docling/models/picture_description_api_model.py and
docling/models/picture_description_llama_stack_api_model.py,
together with theorems settling the specification claims.

Images are represented by abstract identifiers (Nat); geometry uses Rat.
-/

/-- Page geometry (page.size.width, page.size.height). -/
structure PageSize where
  width : Rat
  height : Rat
  deriving DecidableEq

/-- A provenance record of a picture: page number and the area of its
bounding box (prov.bbox.area() is computed by an external collaborator,
so we carry the resulting area directly). -/
structure ProvenanceItem where
  page_no : Nat
  bboxArea : Rat
  deriving DecidableEq

/-- A picture description attached to a picture: PictureDescriptionData
with a text and a provenance tag naming the backend. -/
structure PictureDescriptionData where
  text : String
  provenance : String
  deriving DecidableEq

/-- A picture element: identity, zero-or-one provenance record (held as a
list, as in the source), and an ordered list of attached descriptions. -/
structure PictureItem where
  id : Nat
  prov : List ProvenanceItem
  annotations : List PictureDescriptionData
  deriving DecidableEq

/-- One item of the flattened document stream (doc.iterate_items()):
either a picture node, or a text-bearing node whose text attribute is the
given string (getattr(item, "text", "") yields "" for non-text nodes,
which we model as a node with empty text). -/
inductive DocItem where
  | picture (id : Nat)
  | node (text : String)
  deriving DecidableEq

/-- The document: the flattened item stream plus the page map. -/
structure DoclingDocument where
  items : List DocItem
  pages : Nat → Option PageSize

/-- The per-backend options relevant to this stage. -/
structure PictureDescriptionOptions where
  prompt : String
  text_context_window_size_before_picture : Nat
  text_context_window_size_after_picture : Nat
  picture_area_threshold : Rat
  deriving DecidableEq

/-- The text attribute of a document item: pictures expose no text
(getattr default ""). -/
def textOf : DocItem → String
  | .picture _ => ""
  | .node t => t

/-- The source guard `if text and text.strip():`: the text is non-empty
and stripping whitespace leaves it non-empty, i.e. some character is not
whitespace. -/
def isNonEmptyText (t : String) : Bool :=
  decide (t ≠ "") && t.data.any (fun c => !c.isWhitespace)

/-- The scan loop of _get_surrounding_text: walk the items, collecting
non-empty texts into a before-buffer until the target picture is met, then
into an after-buffer capped at afterCap; every iteration that is not the
target picture ends with the check `after_count >= cap`, which breaks the
loop. Returns the two buffers. -/
def scanSurrounding (picId afterCap : Nat) :
    List DocItem → Bool → List String → List String → Nat → List String × List String
  | [], _, before, after, _ => (before, after)
  | item :: rest, found, before, after, afterCount =>
    if item = DocItem.picture picId then
      scanSurrounding picId afterCap rest true before after afterCount
    else
      let t := textOf item
      let before1 := if !found && isNonEmptyText t then before ++ [t] else before
      let collect := found && decide (afterCount < afterCap) && isNonEmptyText t
      let after1 := if collect then after ++ [t] else after
      let afterCount1 := if collect then afterCount + 1 else afterCount
      if afterCap ≤ afterCount1 then (before1, after1)
      else scanSurrounding picId afterCap rest found before1 after1 afterCount1

/-- Python list slicing lst[-n:] for n > 0: the last n elements. -/
def takeLast (n : Nat) (l : List String) : List String :=
  l.drop (l.length - n)

/-- _get_surrounding_text: run the scan, keep the last
text_context_window_size_before_picture entries of the before-buffer (when
that window is positive), append the after-buffer (when that window is
positive), and join with newlines. -/
def getSurroundingText (opts : PictureDescriptionOptions) (doc : DoclingDocument)
    (picId : Nat) : String :=
  let buffers := scanSurrounding picId opts.text_context_window_size_after_picture
    doc.items false [] [] 0
  let context :=
    (if 0 < opts.text_context_window_size_before_picture then
        takeLast opts.text_context_window_size_before_picture buffers.1
      else []) ++
    (if 0 < opts.text_context_window_size_after_picture then buffers.2 else [])
  String.intercalate "\n" context

/-- The relevance filter inlined in __call__ (lines 133-143): describe
unless a provenance exists, its page is known, the page area is positive,
and the area fraction is strictly below the threshold. -/
def shouldDescribe (opts : PictureDescriptionOptions) (pages : Nat → Option PageSize)
    (pic : PictureItem) : Bool :=
  match pic.prov with
  | [] => true
  | p :: _ =>
    match pages p.page_no with
    | none => true
    | some ps =>
      let page_area := ps.width * ps.height
      if 0 < page_area then
        let area_fraction := p.bboxArea / page_area
        if area_fraction < opts.picture_area_threshold then false else true
      else true

/-- Sample options used by witnesses (prompt as in the repository tests,
default 5 percent area threshold). -/
def sampleOptions : PictureDescriptionOptions :=
  { prompt := "Describe this image."
    text_context_window_size_before_picture := 2
    text_context_window_size_after_picture := 1
    picture_area_threshold := 5 / 100 }

/-- One element of the enrichment batch: a picture item with its rendered
image (images are abstract identifiers). -/
structure ItemAndImageEnrichmentElement where
  item : PictureItem
  image : Nat
  deriving DecidableEq

/-- The context computed for a surviving picture inside the loop of
__call__: the surrounding text when either window is positive, else the
empty string. -/
def contextForPicture (opts : PictureDescriptionOptions) (doc : DoclingDocument)
    (pic : PictureItem) : String :=
  if 0 < opts.text_context_window_size_before_picture
      || 0 < opts.text_context_window_size_after_picture then
    getSurroundingText opts doc pic.id
  else ""

/-- The filtering loop of __call__: one pass over the batch building, in
order, the image_context_map and the pictures list for the elements that
pass the relevance filter. -/
def collectSurviving (opts : PictureDescriptionOptions) (doc : DoclingDocument) :
    List ItemAndImageEnrichmentElement → List (Nat × String) × List PictureItem
  | [] => ([], [])
  | el :: rest =>
    let tail := collectSurviving opts doc rest
    if shouldDescribe opts doc.pages el.item then
      ((el.image, contextForPicture opts doc el.item) :: tail.1, el.item :: tail.2)
    else tail

/-- Appending one PictureDescriptionData to a picture (the body of the
final zip loop of __call__). -/
def appendDescription (tag : String) (pic : PictureItem) (description : String) :
    PictureItem :=
  { pic with annotations := pic.annotations ++ [⟨description, tag⟩] }

/-- __call__ of PictureDescriptionBaseModel: when disabled, pass the
original items through; otherwise filter the batch, build contexts, obtain
the descriptions from the context-aware backend operation (when a window
is positive) or the plain one, and zip the descriptions back onto the
surviving pictures. The two backend operations are parameters. -/
def pictureDescriptionCall (enabled : Bool) (opts : PictureDescriptionOptions)
    (tag : String) (doc : DoclingDocument)
    (annotateWithContext : List (Nat × String) → List String)
    (annotateImages : List Nat → List String)
    (batch : List ItemAndImageEnrichmentElement) : List PictureItem :=
  if !enabled then batch.map (fun el => el.item)
  else
    let collected := collectSurviving opts doc batch
    let descriptions :=
      if 0 < opts.text_context_window_size_before_picture
          || 0 < opts.text_context_window_size_after_picture then
        annotateWithContext collected.1
      else
        annotateImages (collected.1.map Prod.fst)
    List.zipWith (appendDescription tag) collected.2 descriptions

/-- Errors of the docling exception module that this stage raises. -/
inductive DoclingError where
  | operationNotAllowed (msg : String)
  deriving DecidableEq

/-- The message of the remote-services guard in both API model
constructors. -/
def remoteServicesMsg : String :=
  "Connections to remote services is only allowed when set explicitly. pipeline_options.enable_remote_services=True."

/-- The state a backend constructor establishes (the attributes set by
PictureDescriptionBaseModel.__init__). -/
structure ConstructedModel where
  enabled : Bool
  options : PictureDescriptionOptions
  provenanceTag : String
  deriving DecidableEq

/-- PictureDescriptionApiModel.__init__: set the base attributes, then
raise OperationNotAllowed when enabled without remote services permission.
No network request is part of construction. -/
def apiModelInit (enabled enable_remote_services : Bool)
    (options : PictureDescriptionOptions) : Except DoclingError ConstructedModel :=
  let base : ConstructedModel :=
    { enabled := enabled, options := options, provenanceTag := "not-implemented" }
  if enabled && !enable_remote_services then
    Except.error (DoclingError.operationNotAllowed remoteServicesMsg)
  else Except.ok base

/-- PictureDescriptionLlamaStackApiModel.__init__: identical guard. -/
def llamaStackApiModelInit (enabled enable_remote_services : Bool)
    (options : PictureDescriptionOptions) : Except DoclingError ConstructedModel :=
  let base : ConstructedModel :=
    { enabled := enabled, options := options, provenanceTag := "not-implemented" }
  if enabled && !enable_remote_services then
    Except.error (DoclingError.operationNotAllowed remoteServicesMsg)
  else Except.ok base

/-- The list comprehension of the default _annotate_with_context that
extracts the images (first components) from the image-context pairs. -/
def imagesOf : List (Nat × String) → List Nat
  | [] => []
  | p :: rest => p.1 :: imagesOf rest

/-- The default _annotate_with_context of PictureDescriptionBaseModel:
extract the images and yield from _annotate_images, discarding contexts. -/
def annotateWithContextDefault (annotateImages : List Nat → List String)
    (pairs : List (Nat × String)) : List String :=
  annotateImages (imagesOf pairs)

/-- The same operation as the specification words it: the context-aware
operation falls back to discarding context and calling the context-free
operation on the sequence of first components. -/
def annotateWithContextSpec (annotateImages : List Nat → List String)
    (pairs : List (Nat × String)) : List String :=
  annotateImages (pairs.map Prod.fst)

/-- A llama-stack request as built by _annotate_images (lines 95-116): the
message text content and the encoded image. -/
structure LlamaStackRequest where
  textContent : String
  imageData : Nat
  deriving DecidableEq

/-- The requests issued by PictureDescriptionLlamaStackApiModel
._annotate_images: one per image, text content equal to the configured
prompt. -/
def llamaStackRequests (opts : PictureDescriptionOptions) (images : List Nat) :
    List LlamaStackRequest :=
  images.map (fun img => { textContent := opts.prompt, imageData := img })

/-- The requests issued when annotate_with_context is called on the
llama-stack model: it does not override _annotate_with_context, so the
inherited default extracts the images and runs _annotate_images. -/
def llamaStackRequestsWithContext (opts : PictureDescriptionOptions)
    (pairs : List (Nat × String)) : List LlamaStackRequest :=
  llamaStackRequests opts (imagesOf pairs)

/-- An HTTP response as seen by the llama-stack backend. -/
structure HttpResponse where
  status : Nat
  body : String
  deriving DecidableEq

/-- requests.Response.ok: status code below 400. -/
def responseOk (r : HttpResponse) : Bool :=
  r.status < 400

/-- requests.Response.raise_for_status raises exactly for the 4xx and 5xx
status codes. -/
def raisesForStatus (r : HttpResponse) : Bool :=
  400 ≤ r.status && r.status < 600

/-- The outcome of handling one llama-stack HTTP response: either an
exception was raised (recording whether the body was logged first), or a
description was yielded (recording likewise what was logged). -/
inductive LlamaCallOutcome where
  | raised (loggedBody : Option String)
  | yielded (generatedText : String) (loggedBody : Option String)
  deriving DecidableEq

/-- Python str.strip(): remove whitespace from both ends. -/
def pyStrip (s : String) : String :=
  String.mk (((s.data.dropWhile Char.isWhitespace).reverse.dropWhile
    Char.isWhitespace).reverse)

/-- Lines 124-130 of the llama-stack model: log the body when the
response is not ok, raise for a 4xx or 5xx status, otherwise validate the
body (parseContent, none modelling a pydantic validation failure) and
yield the stripped content. -/
def llamaStackHandleResponse (r : HttpResponse)
    (parseContent : String → Option String) : LlamaCallOutcome :=
  let logged : Option String := if responseOk r then none else some r.body
  if raisesForStatus r then LlamaCallOutcome.raised logged
  else
    match parseContent r.body with
    | none => LlamaCallOutcome.raised logged
    | some content => LlamaCallOutcome.yielded (pyStrip content) logged

/-- An API request as built by PictureDescriptionApiModel (the arguments
of api_image_request): the prompt and the image. -/
structure ApiRequest where
  prompt : String
  imageRef : Nat
  deriving DecidableEq

/-- The requests issued by PictureDescriptionApiModel
._annotate_with_context: one per pair, with the context-augmented prompt
built by the f-string context + newline + base prompt. -/
def apiRequestsWithContext (opts : PictureDescriptionOptions)
    (pairs : List (Nat × String)) : List ApiRequest :=
  pairs.map (fun p => { prompt := p.2 ++ "\n" ++ opts.prompt, imageRef := p.1 })

/-- The surviving pictures of a batch, as the specification describes
them: the filter-passing elements in their original order. -/
def survivingPictures (opts : PictureDescriptionOptions) (doc : DoclingDocument)
    (batch : List ItemAndImageEnrichmentElement) : List PictureItem :=
  (batch.filter (fun el => shouldDescribe opts doc.pages el.item)).map
    (fun el => el.item)

/-- The descriptions the backend produces for a batch: the context-aware
operation on the surviving (image, context) pairs when a context window is
positive, else the context-free operation on the surviving images. -/
def survivingDescriptions (opts : PictureDescriptionOptions) (doc : DoclingDocument)
    (annotateWithContext : List (Nat × String) → List String)
    (annotateImages : List Nat → List String)
    (batch : List ItemAndImageEnrichmentElement) : List String :=
  if 0 < opts.text_context_window_size_before_picture
      || 0 < opts.text_context_window_size_after_picture then
    annotateWithContext
      ((batch.filter (fun el => shouldDescribe opts doc.pages el.item)).map
        (fun el => (el.image, contextForPicture opts doc el.item)))
  else
    annotateImages
      ((batch.filter (fun el => shouldDescribe opts doc.pages el.item)).map
        (fun el => el.image))

/-- The image-context comprehension of the default _annotate_with_context
equals mapping the first projection. -/
theorem imagesOf_eq_map (pairs : List (Nat × String)) :
    imagesOf pairs = pairs.map Prod.fst := by
  induction pairs with
  | nil => rfl
  | cons p rest ih => simp [imagesOf, ih]

/-- The filtering loop computes the filtered image-context map and the
filtered pictures list. -/
theorem collectSurviving_eq (opts : PictureDescriptionOptions) (doc : DoclingDocument)
    (batch : List ItemAndImageEnrichmentElement) :
    collectSurviving opts doc batch =
      ((batch.filter (fun el => shouldDescribe opts doc.pages el.item)).map
         (fun el => (el.image, contextForPicture opts doc el.item)),
       (batch.filter (fun el => shouldDescribe opts doc.pages el.item)).map
         (fun el => el.item)) := by
  induction batch with
  | nil => rfl
  | cons el rest ih =>
    simp only [collectSurviving, ih, List.filter_cons]
    by_cases h : shouldDescribe opts doc.pages el.item = true <;> simp [h]

/-- C4: On the document item sequence [T1, T2, T3, PIC, T4, T5] with
before-window 2 and after-window 1, _get_surrounding_text returns
exactly the string joining T2, T3 and T4 with newlines. -/
theorem c4_context_window_example :
    getSurroundingText
      { prompt := "p", text_context_window_size_before_picture := 2,
        text_context_window_size_after_picture := 1, picture_area_threshold := 0 }
      ⟨[DocItem.node "T1", DocItem.node "T2", DocItem.node "T3", DocItem.picture 7,
        DocItem.node "T4", DocItem.node "T5"], fun _ => none⟩ 7 = "T2\nT3\nT4" := by
  rfl

/-- C1: with before-window 2 and after-window 0 on the document
[T1, T2, PIC], the extractor returns only "T1", not the last two
before-texts "T1\nT2" the claim requires: the after-cap termination check
fires on the very first scanned item when the after-window is 0. -/
theorem c1_after_cap_zero_truncates_before_buffer :
    getSurroundingText
      { prompt := "p", text_context_window_size_before_picture := 2,
        text_context_window_size_after_picture := 0, picture_area_threshold := 0 }
      ⟨[DocItem.node "T1", DocItem.node "T2", DocItem.picture 0], fun _ => none⟩ 0
      = "T1" ∧
    getSurroundingText
      { prompt := "p", text_context_window_size_before_picture := 2,
        text_context_window_size_after_picture := 0, picture_area_threshold := 0 }
      ⟨[DocItem.node "T1", DocItem.node "T2", DocItem.picture 0], fun _ => none⟩ 0
      ≠ "T1\nT2" := by
  exact ⟨by rfl, by decide⟩

/-- C5: constructing either remote API backend with enabled true and
remote services not allowed returns the OperationNotAllowed error; the
constructor model performs no network action. -/
theorem c5_remote_guard_at_construction (options : PictureDescriptionOptions) :
    apiModelInit true false options
      = Except.error (DoclingError.operationNotAllowed remoteServicesMsg) ∧
    llamaStackApiModelInit true false options
      = Except.error (DoclingError.operationNotAllowed remoteServicesMsg) :=
  ⟨rfl, rfl⟩

/-- C10: with the backend disabled, __call__ yields exactly the original
batch items, in order and unchanged, for any backend operations. -/
theorem c10_disabled_passthrough (opts : PictureDescriptionOptions) (tag : String)
    (doc : DoclingDocument) (aw : List (Nat × String) → List String)
    (ai : List Nat → List String) (batch : List ItemAndImageEnrichmentElement) :
    pictureDescriptionCall false opts tag doc aw ai batch
      = batch.map (fun el => el.item) := rfl

/-- C9: for any context-free operation and any sequence of pairs, the
default _annotate_with_context produces exactly what the specification
states: the context-free operation applied to the first components, in
order. -/
theorem c9_default_context_fallback (ai : List Nat → List String)
    (pairs : List (Nat × String)) :
    annotateWithContextDefault ai pairs = annotateWithContextSpec ai pairs := by
  unfold annotateWithContextDefault annotateWithContextSpec
  rw [imagesOf_eq_map]

/-- C6: annotate_with_context on the llama-stack backend issues one
request per pair whose text content is exactly the configured base
prompt, and the requests equal those of the context-free operation on the
images alone: the context strings never enter any request. -/
theorem c6_llama_stack_discards_context (opts : PictureDescriptionOptions)
    (pairs : List (Nat × String)) :
    (llamaStackRequestsWithContext opts pairs).map (fun r => r.textContent)
      = List.replicate pairs.length opts.prompt ∧
    llamaStackRequestsWithContext opts pairs
      = llamaStackRequests opts (pairs.map Prod.fst) := by
  constructor
  · induction pairs with
    | nil => rfl
    | cons p rest ih =>
      simpa [llamaStackRequestsWithContext, llamaStackRequests, imagesOf,
        List.replicate_succ] using ih
  · simp [llamaStackRequestsWithContext, imagesOf_eq_map]

/-- C8: for every pair whose context is non-empty, the request issued by
the API model carries the prompt context + newline + base prompt: the
base prompt is retained, never replaced. -/
theorem c8_api_context_prompt (opts : PictureDescriptionOptions)
    (pairs : List (Nat × String)) (i : Nat) (hi : i < pairs.length)
    (_hne : (pairs.get ⟨i, hi⟩).2 ≠ "") :
    ∃ hj : i < (apiRequestsWithContext opts pairs).length,
      ((apiRequestsWithContext opts pairs).get ⟨i, hj⟩).prompt
        = (pairs.get ⟨i, hi⟩).2 ++ "\n" ++ opts.prompt := by
  have hlen : (apiRequestsWithContext opts pairs).length = pairs.length := by
    simp [apiRequestsWithContext]
  refine ⟨by omega, ?_⟩
  simp [apiRequestsWithContext, List.get_eq_getElem, List.getElem_map]

/-- Witness for C8 at the single pair (1, "ctx"). -/
theorem c8_api_context_prompt_witness :
    (([((1 : Nat), "ctx")] : List (Nat × String)).get ⟨0, by decide⟩).2 ≠ "" ∧
    ∃ hj : 0 < (apiRequestsWithContext sampleOptions [((1 : Nat), "ctx")]).length,
      ((apiRequestsWithContext sampleOptions [((1 : Nat), "ctx")]).get ⟨0, hj⟩).prompt
        = (([((1 : Nat), "ctx")] : List (Nat × String)).get ⟨0, by decide⟩).2
            ++ "\n" ++ sampleOptions.prompt :=
  ⟨by decide,
   c8_api_context_prompt sampleOptions [((1 : Nat), "ctx")] 0 (by decide) (by decide)⟩

/-- C7 counterexample: the response with status 304 has a non-2xx status,
yet the llama-stack handling neither logs nor raises for it: it yields a
description, refuting the claim at this input. -/
theorem c7_counterexample_status_304 :
    ¬ (200 ≤ 304 ∧ 304 < 300) ∧
    llamaStackHandleResponse ⟨304, "not modified"⟩ (fun _ => some "cached")
      = LlamaCallOutcome.yielded "cached" none :=
  ⟨by decide, by rfl⟩

/-- C7 amended: for every response with a 4xx or 5xx status code, the
llama-stack handling logs the response body and raises, yielding no
description for that call. -/
theorem c7_error_status_logs_and_raises (r : HttpResponse)
    (parse : String → Option String) (h4 : 400 ≤ r.status) (h6 : r.status < 600) :
    llamaStackHandleResponse r parse = LlamaCallOutcome.raised (some r.body) := by
  have h1 : responseOk r = false := by
    simp only [responseOk, decide_eq_false_iff_not, not_lt]
    omega
  have h2 : raisesForStatus r = true := by
    simp [raisesForStatus, h4, h6]
  simp [llamaStackHandleResponse, h1, h2]

/-- Witness for the amended C7 at a 404 response. -/
theorem c7_error_status_witness :
    400 ≤ 404 ∧ 404 < 600 ∧
    llamaStackHandleResponse ⟨404, "not found"⟩ (fun _ => none)
      = LlamaCallOutcome.raised (some "not found") :=
  ⟨by decide, by decide,
   c7_error_status_logs_and_raises ⟨404, "not found"⟩ (fun _ => none)
     (by decide) (by decide)⟩

/-- C2: when enabled and the backend operations are length-preserving,
__call__ returns exactly the zip of the surviving pictures (in batch
order) with the backend descriptions (in order): the i-th surviving
picture gets one appended description, the i-th one, tagged with the
backend provenance, and the description list has the same length as the
survivors. -/
theorem c2_enabled_zip_order (opts : PictureDescriptionOptions) (tag : String)
    (doc : DoclingDocument) (aw : List (Nat × String) → List String)
    (ai : List Nat → List String) (batch : List ItemAndImageEnrichmentElement)
    (haw : ∀ l, (aw l).length = l.length) (hai : ∀ l, (ai l).length = l.length) :
    pictureDescriptionCall true opts tag doc aw ai batch =
      List.zipWith (appendDescription tag) (survivingPictures opts doc batch)
        (survivingDescriptions opts doc aw ai batch) ∧
    (survivingDescriptions opts doc aw ai batch).length
      = (survivingPictures opts doc batch).length := by
  constructor
  · simp only [pictureDescriptionCall, Bool.not_true, if_neg, collectSurviving_eq,
      survivingPictures, survivingDescriptions]
    by_cases hw : (0 < opts.text_context_window_size_before_picture
        || 0 < opts.text_context_window_size_after_picture) = true <;>
      simp [hw, List.map_map, Function.comp_def]
  · simp only [survivingPictures, survivingDescriptions]
    by_cases hw : (0 < opts.text_context_window_size_before_picture
        || 0 < opts.text_context_window_size_after_picture) = true <;>
      simp [hw, haw, hai, List.length_map]

/-- Witness for C2 on a one-element batch with constant backends. -/
theorem c2_enabled_zip_order_witness :
    (∀ l : List (Nat × String), (l.map (fun _ => "d")).length = l.length) ∧
    (∀ l : List Nat, (l.map (fun _ => "d")).length = l.length) ∧
    (pictureDescriptionCall true sampleOptions "t" ⟨[], fun _ => none⟩
        (fun l => l.map (fun _ => "d")) (fun l => l.map (fun _ => "d"))
        [⟨⟨0, [], []⟩, 5⟩] =
      List.zipWith (appendDescription "t")
        (survivingPictures sampleOptions ⟨[], fun _ => none⟩ [⟨⟨0, [], []⟩, 5⟩])
        (survivingDescriptions sampleOptions ⟨[], fun _ => none⟩
          (fun l => l.map (fun _ => "d")) (fun l => l.map (fun _ => "d"))
          [⟨⟨0, [], []⟩, 5⟩]) ∧
     (survivingDescriptions sampleOptions ⟨[], fun _ => none⟩
        (fun l => l.map (fun _ => "d")) (fun l => l.map (fun _ => "d"))
        [⟨⟨0, [], []⟩, 5⟩]).length
       = (survivingPictures sampleOptions ⟨[], fun _ => none⟩
           [⟨⟨0, [], []⟩, 5⟩]).length) :=
  ⟨fun l => by simp, fun l => by simp,
   c2_enabled_zip_order sampleOptions "t" ⟨[], fun _ => none⟩
     (fun l => l.map (fun _ => "d")) (fun l => l.map (fun _ => "d"))
     [⟨⟨0, [], []⟩, 5⟩] (fun l => by simp) (fun l => by simp)⟩

/-- C3: assuming all known pages have non-negative dimensions, the
relevance filter describes a picture exactly when it has no provenance,
or the provenance page is unknown, or the page area is zero, or the area
fraction is at least the threshold (boundary inclusive). -/
theorem c3_relevance_filter_characterization (opts : PictureDescriptionOptions)
    (pages : Nat → Option PageSize) (pic : PictureItem)
    (hpos : ∀ n ps, pages n = some ps → 0 ≤ ps.width ∧ 0 ≤ ps.height) :
    shouldDescribe opts pages pic = true ↔
      (pic.prov = [] ∨
       ∃ p, pic.prov.head? = some p ∧
         (pages p.page_no = none ∨
          ∃ ps, pages p.page_no = some ps ∧
            (ps.width * ps.height = 0 ∨
             opts.picture_area_threshold ≤ p.bboxArea / (ps.width * ps.height)))) := by
  rcases hp : pic.prov with _ | ⟨p, rest⟩
  · simp [shouldDescribe, hp]
  · rcases hpg : pages p.page_no with _ | ps
    · simp [shouldDescribe, hp, hpg]
    · obtain ⟨hw, hh⟩ := hpos _ _ hpg
      have harea : 0 ≤ ps.width * ps.height := mul_nonneg hw hh
      rcases eq_or_lt_of_le harea with hzero | hpos2
      · have hz : ps.width * ps.height = 0 := hzero.symm
        simp [shouldDescribe, hp, hpg, hz]
        exact Or.inl (mul_eq_zero.mp hz)
      · by_cases hlt :
            p.bboxArea / (ps.width * ps.height) < opts.picture_area_threshold
        · simp [shouldDescribe, hp, hpg, hpos2, hlt, hpos2.ne', not_le_of_lt hlt]
          exact mul_ne_zero_iff.mp hpos2.ne'
        · simp [shouldDescribe, hp, hpg, hpos2, hlt, le_of_not_lt hlt]

/-- Witness for C3 on a picture without provenance over an empty page
map. -/
theorem c3_relevance_filter_witness :
    (∀ n ps, (fun _ : Nat => (none : Option PageSize)) n = some ps →
        0 ≤ ps.width ∧ 0 ≤ ps.height) ∧
    (shouldDescribe sampleOptions (fun _ => none) ⟨0, [], []⟩ = true ↔
      ((⟨0, [], []⟩ : PictureItem).prov = [] ∨
       ∃ p, (⟨0, [], []⟩ : PictureItem).prov.head? = some p ∧
         ((fun _ : Nat => (none : Option PageSize)) p.page_no = none ∨
          ∃ ps, (fun _ : Nat => (none : Option PageSize)) p.page_no = some ps ∧
            (ps.width * ps.height = 0 ∨
             sampleOptions.picture_area_threshold
               ≤ p.bboxArea / (ps.width * ps.height))))) :=
  ⟨(fun _ _ h => nomatch h),
   c3_relevance_filter_characterization sampleOptions (fun _ => none) ⟨0, [], []⟩
     (fun _ _ h => nomatch h)⟩
